import Mathlib

/-!
Shallow embedding of the friend-relationship manager from
src/src/components/Home.js.

The component's React state is modelled as an explicit record
(HomeState).  Each remote call in the source is an async fetch whose
outcome is supplied here as an explicit parameter:

  * fetch itself rejects only on a transport/network error;
  * a resolved response carries an ok flag (2xx or not) and, where the
    source calls response.json(), a parsed body (whose parsing may fail);
  * the source never reads response.ok, so a non-2xx response with a
    parseable body flows down the success path.

FetchOutcome captures outcomes of calls whose body is read with
response.json(); PostOutcome captures outcomes of POST calls whose body
the source never reads (acceptFriendRequest, unfriend), where only the
transport can fail.

Every handler in the source wraps its body in try/catch and the catch
clause only logs (and, in sendFriendRequest alone, sets an error
notification), so each operation is a total function on HomeState.
-/

namespace MakeFriends

/-- A user record as rendered by Home.js: Mongo id, username and the
requestStatus field consulted by the search-results buttons. -/
structure User where
  _id : String
  username : String
  requestStatus : String
deriving DecidableEq, Repr

/-- A recommendation entry: rec.user, rec.mutualFriends, rec.mutualInterests. -/
structure Recommendation where
  user : User
  mutualFriends : Nat
  mutualInterests : Nat
deriving DecidableEq, Repr

/-- The single notifications slot: useState({ message, type }). -/
structure Notice where
  message : String
  type : String
deriving DecidableEq, Repr

/-- Parsed body of the toggle call POST /friends/request/:userId,
read as data.status and data.message in sendFriendRequest. -/
structure ToggleResponse where
  status : String
  message : String
deriving DecidableEq, Repr

/-- Outcome of a fetch whose body the source parses with response.json():
the fetch promise rejects only on transport error, response.json() may
reject on a malformed body, and otherwise the parsed body arrives
together with the ok flag (which the source never inspects). -/
inductive FetchOutcome (α : Type) where
  | networkError
  | malformedBody
  | response (ok : Bool) (body : α)
deriving DecidableEq, Repr

/-- True when the outcome makes the await throw, landing in the catch clause. -/
def FetchOutcome.isFailure : FetchOutcome α → Bool
  | .networkError => true
  | .malformedBody => true
  | .response _ _ => false

/-- Outcome of a POST whose body the source never reads: only the
transport can make the await throw. -/
inductive PostOutcome where
  | networkError
  | response (ok : Bool)
deriving DecidableEq, Repr

/-- The React state of the Home component. -/
structure HomeState where
  searchTerm : String
  searchResults : List User
  friends : List User
  recommendations : List Recommendation
  pendingRequests : List User
  notifications : Notice
deriving DecidableEq, Repr

/-- State at mount: all collections empty, empty notification slot. -/
def initialHomeState : HomeState :=
  { searchTerm := ""
    searchResults := []
    friends := []
    recommendations := []
    pendingRequests := []
    notifications := { message := "", type := "" } }

/-- fetchFriends (Home.js 16-26): GET /friends, setFriends(data); the
catch clause only does console.error, leaving state untouched. -/
def fetchFriends (st : HomeState) (out : FetchOutcome (List User)) : HomeState :=
  match out with
  | .networkError => st
  | .malformedBody => st
  | .response _ data => { st with friends := data }

/-- fetchRecommendations (Home.js 28-38): GET /friends/recommendations,
setRecommendations(data); catch only logs. -/
def fetchRecommendations (st : HomeState)
    (out : FetchOutcome (List Recommendation)) : HomeState :=
  match out with
  | .networkError => st
  | .malformedBody => st
  | .response _ data => { st with recommendations := data }

/-- fetchPendingRequests (Home.js 40-50): GET /friends/pending,
setPendingRequests(data); catch only logs. -/
def fetchPendingRequests (st : HomeState)
    (out : FetchOutcome (List User)) : HomeState :=
  match out with
  | .networkError => st
  | .malformedBody => st
  | .response _ data => { st with pendingRequests := data }

/-- fetchAllData (Home.js 53-60): await fetchFriends(); await
fetchRecommendations(); await fetchPendingRequests(); — the three
fetches run one after another, each swallowing its own failure. -/
def fetchAllData (st : HomeState)
    (frOut : FetchOutcome (List User))
    (recOut : FetchOutcome (List Recommendation))
    (pendOut : FetchOutcome (List User)) : HomeState :=
  fetchPendingRequests (fetchRecommendations (fetchFriends st frOut) recOut) pendOut

/-- The in-place patch of one search-result entry performed by
sendFriendRequest on its success path (Home.js 108-114). -/
def patchSearchResult (userId : String) (status : String) (u : User) : User :=
  if u._id = userId
  then { u with requestStatus := if status = "requested" then "requested" else "none" }
  else u

/-- sendFriendRequest (Home.js 93-120): POST /friends/request/:userId.
On a resolved response (ok checked nowhere) the parsed data drives a
notification (success when data.status is requested, info otherwise),
a map-in-place patch of searchResults by _id, and a fire-and-forget
fetchRecommendations whose outcome is recOut.  The catch clause sets
the one error notification in the file. -/
def sendFriendRequest (st : HomeState) (userId : String)
    (out : FetchOutcome ToggleResponse)
    (recOut : FetchOutcome (List Recommendation)) : HomeState :=
  match out with
  | .networkError =>
      { st with notifications := { message := "Error managing friend request", type := "error" } }
  | .malformedBody =>
      { st with notifications := { message := "Error managing friend request", type := "error" } }
  | .response _ data =>
      fetchRecommendations
        { st with
            notifications :=
              { message := data.message
                type := if data.status = "requested" then "success" else "info" }
            searchResults := st.searchResults.map (patchSearchResult userId data.status) }
        recOut

/-- acceptFriendRequest (Home.js 122-133): POST /friends/accept/:userId
(body never read), then fire-and-forget fetchPendingRequests() and
fetchFriends() with outcomes pendOut and frOut; catch only logs. -/
def acceptFriendRequest (st : HomeState) (userId : String)
    (out : PostOutcome)
    (pendOut : FetchOutcome (List User))
    (frOut : FetchOutcome (List User)) : HomeState :=
  match out with
  | .networkError => st
  | .response _ => fetchFriends (fetchPendingRequests st pendOut) frOut

/-- unfriend (Home.js 135-145): POST /friends/unfriend/:userId (body
never read), then fire-and-forget fetchFriends(); catch only logs. -/
def unfriend (st : HomeState) (userId : String)
    (out : PostOutcome)
    (frOut : FetchOutcome (List User)) : HomeState :=
  match out with
  | .networkError => st
  | .response _ => fetchFriends st frOut

/-!
Search coordination (Home.js 63-90).

debouncedSearch is lodash debounce(fn, 300) with default options:
trailing-edge only, latest arguments, the deadline pushed to call
time + 300 on every call.  handleSearchChange sets the term, and for a
non-empty term calls debouncedSearch(term) (resetting the timer); for
an empty term it clears searchResults synchronously and leaves any
pending timer running — the source never calls debouncedSearch.cancel().
When the timer fires, the request for the stored term is issued; when
any issued request resolves with a parseable body, setSearchResults(data)
runs unconditionally — there is no check against the current term.

SearchState carries the part of the component this concerns, the pending
debounce timer (deadline and stored term) and the list of issued request
terms, indexed by issue order.  SearchEvent is an external scheduling
event; processing any event at time t first fires a due timer, matching
the single-threaded event loop running the timer callback before later
events.
-/

/-- Search-relevant component state plus the debounce timer and the
requests issued so far (request i carries term issued[i]). -/
structure SearchState where
  searchTerm : String
  searchResults : List User
  timer : Option (Nat × String)
  issued : List String
deriving DecidableEq, Repr

/-- Search state at mount: no timer, nothing issued. -/
def initialSearchState : SearchState :=
  { searchTerm := "", searchResults := [], timer := none, issued := [] }

/-- Run the debounce timer callback if its deadline has passed: the
stored term becomes an issued request and the timer is cleared. -/
def fireTimer (t : Nat) (s : SearchState) : SearchState :=
  match s.timer with
  | some (deadline, term) =>
      if deadline ≤ t then { s with timer := none, issued := s.issued ++ [term] }
      else s
  | none => s

/-- External events driving the search coordinator: a keystroke
(handleSearchChange), bare passage of time letting the timer fire, and
the arrival of the reply to issued request number req. -/
inductive SearchEvent where
  | input (t : Nat) (term : String)
  | tick (t : Nat)
  | resolve (t : Nat) (req : Nat) (out : FetchOutcome (List User))
deriving DecidableEq, Repr

/-- One scheduling step.  input with a non-empty term resets the timer
to t + 300 with that term (lodash debounce trailing edge); input with
the empty term clears searchResults synchronously and touches no timer
(Home.js 87-89).  resolve of an issued request with a parsed body
overwrites searchResults unconditionally (Home.js 73-74); a failed
request is swallowed by the catch (Home.js 75-77). -/
def searchStep (s : SearchState) (e : SearchEvent) : SearchState :=
  match e with
  | .tick t => fireTimer t s
  | .input t term =>
      let s1 := fireTimer t s
      if term.length > 0 then
        { s1 with searchTerm := term, timer := some (t + 300, term) }
      else
        { s1 with searchTerm := term, searchResults := [] }
  | .resolve t i out =>
      let s1 := fireTimer t s
      match s1.issued[i]? with
      | none => s1
      | some _ =>
          match out with
          | .networkError => s1
          | .malformedBody => s1
          | .response _ data => { s1 with searchResults := data }

/-- Process a whole event trace in order. -/
def runSearch (s : SearchState) (es : List SearchEvent) : SearchState :=
  es.foldl searchStep s

/-- A keystroke sequence as input events. -/
def keyEvents : List (Nat × String) → List SearchEvent
  | [] => []
  | k :: ks => .input k.1 k.2 :: keyEvents ks

/-- Keystrokes after time prev: each comes no earlier than the one
before, strictly less than 300ms after it, with a non-empty term. -/
def keysWithin300 : Nat → List (Nat × String) → Prop
  | _, [] => True
  | prev, k :: ks => prev ≤ k.1 ∧ k.1 < prev + 300 ∧ 0 < k.2.length ∧ keysWithin300 k.1 ks

/-- The last keystroke of a sequence, given the one before the list. -/
def lastKey (d : Nat × String) : List (Nat × String) → Nat × String
  | [] => d
  | k :: ks => lastKey k ks

/-- keysWithin300 is decidable, so concrete keystroke sequences can be
checked by evaluation. -/
instance instDecKeysWithin300 :
    ∀ (prev : Nat) (ks : List (Nat × String)), Decidable (keysWithin300 prev ks)
  | _, [] => .isTrue trivial
  | prev, k :: ks =>
      letI : Decidable (keysWithin300 k.1 ks) := instDecKeysWithin300 k.1 ks
      decidable_of_iff (prev ≤ k.1 ∧ k.1 < prev + 300 ∧ 0 < k.2.length ∧ keysWithin300 k.1 ks)
        Iff.rfl

/-- fetchRecommendations touches only the recommendations field. -/
theorem fetchRecommendations_searchResults (st : HomeState)
    (out : FetchOutcome (List Recommendation)) :
    (fetchRecommendations st out).searchResults = st.searchResults := by
  cases out <;> rfl

/-- fetchRecommendations leaves friends unchanged. -/
theorem fetchRecommendations_friends (st : HomeState)
    (out : FetchOutcome (List Recommendation)) :
    (fetchRecommendations st out).friends = st.friends := by
  cases out <;> rfl

/-- fetchRecommendations leaves pendingRequests unchanged. -/
theorem fetchRecommendations_pendingRequests (st : HomeState)
    (out : FetchOutcome (List Recommendation)) :
    (fetchRecommendations st out).pendingRequests = st.pendingRequests := by
  cases out <;> rfl

/-- The search-result patch never changes the _id of an entry. -/
theorem patchSearchResult_id (userId status : String) (u : User) :
    (patchSearchResult userId status u)._id = u._id := by
  unfold patchSearchResult
  split <;> rfl

/-- Patching to requested and then to a non-requested status is the
identity on a list whose matching entries start at status none. -/
theorem patch_requested_then_none (uid s2 : String) (hs2 : s2 ≠ "requested")
    (l : List User) (h : ∀ u ∈ l, u._id = uid → u.requestStatus = "none") :
    (l.map (patchSearchResult uid "requested")).map (patchSearchResult uid s2) = l := by
  induction l with
  | nil => rfl
  | cons u l ih =>
      simp only [List.map_cons, List.cons.injEq]
      refine ⟨?_, ih fun v hv hvid => h v (List.mem_cons_of_mem u hv) hvid⟩
      by_cases hu : u._id = uid
      · have hnone := h u (List.mem_cons_self u l) hu
        cases u with
        | mk i n r =>
            simp only [patchSearchResult] at hnone ⊢
            simp_all
      · simp [patchSearchResult, hu]

/-- C1 counterexample: issue a request for x, let a request for y be
issued before x resolves, let x resolve after y — the displayed results
are x's, not y's: the debounced search callback applies whatever
response arrives, with no staleness check. -/
theorem later_request_resolving_first_is_overwritten :
    (runSearch initialSearchState
      [.input 0 "x", .tick 300, .input 310 "y", .tick 610,
       .resolve 700 1 (.response true [⟨"u2", "yuser", "none"⟩]),
       .resolve 800 0 (.response true [⟨"u1", "xuser", "none"⟩])]).issued = ["x", "y"] ∧
    (runSearch initialSearchState
      [.input 0 "x", .tick 300, .input 310 "y", .tick 610,
       .resolve 700 1 (.response true [⟨"u2", "yuser", "none"⟩]),
       .resolve 800 0 (.response true [⟨"u1", "xuser", "none"⟩])]).searchResults
      = [⟨"u1", "xuser", "none"⟩] ∧
    ([⟨"u1", "xuser", "none"⟩] : List User) ≠ [⟨"u2", "yuser", "none"⟩] := by
  refine ⟨rfl, rfl, by decide⟩

/-- C1 (amended): the search callback performs no stale-response check —
the successful response of any issued request, whenever it arrives,
overwrites the displayed results, so the last response to arrive wins
regardless of issue order. -/
theorem resolved_response_always_applied (s : SearchState) (t i : Nat)
    (term : String) (ok : Bool) (data : List User)
    (hTimer : s.timer = none) (hIssued : s.issued[i]? = some term) :
    (searchStep s (.resolve t i (.response ok data))).searchResults = data := by
  simp [searchStep, fireTimer, hTimer, hIssued]

/-- C1 witness: the amended theorem applied to x's late response in the
counterexample trace. -/
theorem resolved_response_always_applied_witness :
    (searchStep
      { searchTerm := "y", searchResults := [⟨"u2", "yuser", "none"⟩],
        timer := none, issued := ["x", "y"] }
      (.resolve 800 0 (.response true [⟨"u1", "xuser", "none"⟩]))).searchResults
      = [⟨"u1", "xuser", "none"⟩] :=
  resolved_response_always_applied _ 800 0 "x" true _ rfl rfl

/-- C2 counterexample: a network failure of the friends fetch leaves the
notification slot untouched (empty, not of kind error) — the catch
clause only logs to the console. -/
theorem load_failure_emits_no_error_notice :
    fetchFriends initialHomeState .networkError = initialHomeState ∧
    (fetchFriends initialHomeState .networkError).notifications.type ≠ "error" := by
  refine ⟨rfl, by decide⟩

/-- C2 (amended): every remote-call failure is caught at the point of
the call and never propagates (each operation is total and returns a
state), but only requestOrCancel converts the failure into an
error-kind notification — the loadAll fetches, accept and unfriend
leave the whole state, notification slot included, unchanged. -/
theorem failures_caught_only_toggle_notifies (st : HomeState) (uid : String)
    (o1 : FetchOutcome (List User)) (o2 : FetchOutcome (List Recommendation))
    (o3 : FetchOutcome (List User)) (oT : FetchOutcome ToggleResponse)
    (recOut : FetchOutcome (List Recommendation))
    (pendOut frOut frOut2 : FetchOutcome (List User))
    (h1 : o1.isFailure = true) (h2 : o2.isFailure = true)
    (h3 : o3.isFailure = true) (hT : oT.isFailure = true) :
    fetchFriends st o1 = st ∧
    fetchRecommendations st o2 = st ∧
    fetchPendingRequests st o3 = st ∧
    acceptFriendRequest st uid .networkError pendOut frOut = st ∧
    unfriend st uid .networkError frOut2 = st ∧
    sendFriendRequest st uid oT recOut
      = { st with notifications :=
            { message := "Error managing friend request", type := "error" } } := by
  cases o1 <;> cases o2 <;> cases o3 <;> cases oT <;>
    simp_all [FetchOutcome.isFailure, fetchFriends, fetchRecommendations,
      fetchPendingRequests, acceptFriendRequest, unfriend, sendFriendRequest]

/-- C2 witness: the amended theorem at concrete failing outcomes. -/
theorem failures_caught_only_toggle_notifies_witness :
    fetchFriends initialHomeState .networkError = initialHomeState :=
  (failures_caught_only_toggle_notifies initialHomeState "u1"
    .networkError .malformedBody .networkError .malformedBody
    .networkError .networkError .networkError .networkError
    rfl rfl rfl rfl).1

/-- C3 counterexample: a non-2xx response (ok = false) whose body parses
as JSON is applied to state — here it wipes a non-empty friends list,
because the source never checks response.ok before setFriends(data). -/
theorem non2xx_response_overwrites_friends :
    (fetchFriends { initialHomeState with friends := [⟨"f1", "alice", "friend"⟩] }
        (.response false [])).friends = [] ∧
    ([] : List User) ≠ [⟨"f1", "alice", "friend"⟩] := by
  refine ⟨rfl, by decide⟩

/-- C3 (amended): when the remote call throws — network error or
malformed body — every operation leaves the four collections unchanged
(sendFriendRequest changes only the notification slot); but a non-2xx
response with a parseable body flows down the success path and does
mutate state. -/
theorem thrown_failure_leaves_collections_unchanged (st : HomeState) (uid : String)
    (oT : FetchOutcome ToggleResponse) (recOut : FetchOutcome (List Recommendation))
    (o1 : FetchOutcome (List User)) (o2 : FetchOutcome (List Recommendation))
    (o3 : FetchOutcome (List User))
    (hT : oT.isFailure = true) (h1 : o1.isFailure = true)
    (h2 : o2.isFailure = true) (h3 : o3.isFailure = true) :
    (sendFriendRequest st uid oT recOut).searchResults = st.searchResults ∧
    (sendFriendRequest st uid oT recOut).friends = st.friends ∧
    (sendFriendRequest st uid oT recOut).recommendations = st.recommendations ∧
    (sendFriendRequest st uid oT recOut).pendingRequests = st.pendingRequests ∧
    acceptFriendRequest st uid .networkError .networkError .networkError = st ∧
    unfriend st uid .networkError .networkError = st ∧
    fetchFriends st o1 = st ∧
    fetchRecommendations st o2 = st ∧
    fetchPendingRequests st o3 = st := by
  cases o1 <;> cases o2 <;> cases o3 <;> cases oT <;>
    simp_all [FetchOutcome.isFailure, fetchFriends, fetchRecommendations,
      fetchPendingRequests, acceptFriendRequest, unfriend, sendFriendRequest]

/-- C3 witness: the amended theorem at concrete thrown failures. -/
theorem thrown_failure_leaves_collections_unchanged_witness :
    (sendFriendRequest initialHomeState "u1" .networkError .networkError).searchResults
      = initialHomeState.searchResults :=
  (thrown_failure_leaves_collections_unchanged initialHomeState "u1"
    .networkError .networkError .malformedBody .networkError .malformedBody
    rfl rfl rfl rfl).1

/-- C4 counterexample: type a at t=0, clear at t=100 (results cleared
synchronously), but the debounce timer scheduled for t=300 is not
cancelled: it fires, issues the request for a, and the response
repopulates the supposedly cleared results. -/
theorem pending_debounce_repopulates_after_clear :
    (runSearch initialSearchState [.input 0 "a", .input 100 ""]).searchResults = [] ∧
    (runSearch initialSearchState
      [.input 0 "a", .input 100 "", .tick 300,
       .resolve 400 0 (.response true [⟨"u1", "albert", "none"⟩])]).searchResults
      = [⟨"u1", "albert", "none"⟩] ∧
    ([⟨"u1", "albert", "none"⟩] : List User) ≠ [] := by
  refine ⟨rfl, rfl, by decide⟩

/-- C4 (amended): an empty-term input clears the displayed results
synchronously, but does not cancel a still-pending debounce timer: the
timer survives the clear, and when its deadline passes it still issues
the stale request, whose response can then repopulate the results. -/
theorem empty_term_clears_but_keeps_timer (s : SearchState) (t deadline : Nat)
    (w : String) (hTimer : s.timer = some (deadline, w)) (ht : t < deadline) :
    (searchStep s (.input t "")).searchResults = [] ∧
    (searchStep s (.input t "")).timer = some (deadline, w) ∧
    (searchStep (searchStep s (.input t "")) (.tick deadline)).issued
      = s.issued ++ [w] := by
  have hnot : ¬ deadline ≤ t := Nat.not_le.mpr ht
  simp [searchStep, fireTimer, hTimer, hnot]

/-- C4 witness: the amended theorem on the counterexample's first two
events. -/
theorem empty_term_clears_but_keeps_timer_witness :
    (searchStep (runSearch initialSearchState [.input 0 "a"]) (.input 100 "")).searchResults
      = [] :=
  (empty_term_clears_but_keeps_timer (runSearch initialSearchState [.input 0 "a"])
    100 300 "a" rfl (by decide)).1

/-- A not-yet-due timer does not fire. -/
theorem fireTimer_not_due (t : Nat) (s : SearchState) (dl : Nat) (w : String)
    (h : s.timer = some (dl, w)) (ht : t < dl) : fireTimer t s = s := by
  simp [fireTimer, h, Nat.not_le.mpr ht]

/-- A due timer fires, issuing the request for its stored term. -/
theorem fireTimer_due_issued (t : Nat) (s : SearchState) (dl : Nat) (w : String)
    (h : s.timer = some (dl, w)) (ht : dl ≤ t) :
    (fireTimer t s).issued = s.issued ++ [w] := by
  simp [fireTimer, h, ht]

/-- Keystrokes that each arrive within 300ms of the previous one keep
resetting the debounce timer: no request is issued along the way, the
displayed results are untouched, and afterwards the timer holds the
last keystroke's term with deadline 300ms after it. -/
theorem runSearch_keyEvents_chain (ks : List (Nat × String)) :
    ∀ (s : SearchState) (prev : Nat) (w : String),
      s.timer = some (prev + 300, w) →
      keysWithin300 prev ks →
      (runSearch s (keyEvents ks)).issued = s.issued ∧
      (runSearch s (keyEvents ks)).searchResults = s.searchResults ∧
      (runSearch s (keyEvents ks)).timer
        = some ((lastKey (prev, w) ks).1 + 300, (lastKey (prev, w) ks).2) := by
  induction ks with
  | nil =>
      intro s prev w hTimer _
      exact ⟨rfl, rfl, hTimer⟩
  | cons k rest ih =>
      intro s prev w hTimer hks
      obtain ⟨t, term⟩ := k
      obtain ⟨hle, hlt, hlen, hrest⟩ := hks
      have hstep : searchStep s (.input t term)
          = { s with searchTerm := term, timer := some (t + 300, term) } := by
        have hnot : ¬ prev + 300 ≤ t := Nat.not_le.mpr hlt
        simp [searchStep, fireTimer, hTimer, hnot, hlen]
      have hrun : runSearch s (keyEvents ((t, term) :: rest))
          = runSearch (searchStep s (.input t term)) (keyEvents rest) := rfl
      rw [hrun, hstep]
      obtain ⟨hIss, hRes, hTim⟩ :=
        ih { s with searchTerm := term, timer := some (t + 300, term) } t term rfl hrest
      exact ⟨hIss, hRes, hTim⟩

/-- C5: for every sequence of non-empty keystrokes each arriving less
than 300ms after the previous one, no request is issued by any tick
strictly before 300ms past the final keystroke, and the tick at exactly
that deadline issues exactly one request, carrying the last term. -/
theorem debounce_single_request_for_last_term
    (t0 : Nat) (w0 : String) (rest : List (Nat × String)) (tEarly : Nat)
    (hw0 : 0 < w0.length)
    (hks : keysWithin300 t0 rest)
    (hEarly : tEarly < (lastKey (t0, w0) rest).1 + 300) :
    (runSearch initialSearchState
        (keyEvents ((t0, w0) :: rest) ++ [.tick tEarly])).issued = [] ∧
    (runSearch initialSearchState
        (keyEvents ((t0, w0) :: rest)
          ++ [.tick ((lastKey (t0, w0) rest).1 + 300)])).issued
      = [(lastKey (t0, w0) rest).2] := by
  have hs1 : searchStep initialSearchState (.input t0 w0)
      = { initialSearchState with searchTerm := w0, timer := some (t0 + 300, w0) } := by
    simp [searchStep, fireTimer, initialSearchState, hw0]
  have expand : ∀ T : Nat,
      runSearch initialSearchState (keyEvents ((t0, w0) :: rest) ++ [.tick T])
        = fireTimer T
            (runSearch (searchStep initialSearchState (.input t0 w0)) (keyEvents rest)) := by
    intro T
    simp only [keyEvents, runSearch, List.cons_append, List.foldl_cons, List.foldl_append,
      List.foldl_nil]
    rfl
  obtain ⟨hIss, hRes, hTim⟩ := runSearch_keyEvents_chain rest
      (searchStep initialSearchState (.input t0 w0)) t0 w0 (by rw [hs1]) hks
  have hIssNil : (runSearch (searchStep initialSearchState (.input t0 w0))
      (keyEvents rest)).issued = [] := by
    rw [hIss, hs1]
    rfl
  constructor
  · rw [expand tEarly, fireTimer_not_due tEarly _ _ _ hTim hEarly, hIssNil]
  · rw [expand ((lastKey (t0, w0) rest).1 + 300),
      fireTimer_due_issued _ _ _ _ hTim (Nat.le_refl _), hIssNil]
    rfl

/-- C5 witness: keystrokes a at t=0, ab at t=100, abc at t=150 — no
request at t=449, exactly one request, for abc, at t=450. -/
theorem debounce_single_request_for_last_term_witness :
    (runSearch initialSearchState
        (keyEvents [(0, "a"), (100, "ab"), (150, "abc")] ++ [.tick 449])).issued = [] ∧
    (runSearch initialSearchState
        (keyEvents [(0, "a"), (100, "ab"), (150, "abc")] ++ [.tick 450])).issued
      = ["abc"] := by
  have h := debounce_single_request_for_last_term 0 "a" [(100, "ab"), (150, "abc")] 449
    (by decide) (by decide) (by decide)
  exact ⟨h.1, h.2⟩

/-- C6: on a successful toggle response, the notification carries the
server message with severity success when a new request was created and
info otherwise, the matching search-result entry's requestStatus is
rewritten in place according to the server-reported status, and the
recommendations refresh is triggered (its fetched value lands in
state). -/
theorem toggle_success_updates_status_notice_recs (st : HomeState) (uid : String)
    (data : ToggleResponse) (newRecs : List Recommendation)
    (i : Nat) (u : User)
    (hi : st.searchResults[i]? = some u) (hu : u._id = uid) :
    (sendFriendRequest st uid (.response true data) (.response true newRecs)).notifications
      = { message := data.message,
          type := if data.status = "requested" then "success" else "info" } ∧
    (sendFriendRequest st uid (.response true data) (.response true newRecs)).searchResults[i]?
      = some { u with
          requestStatus := if data.status = "requested" then "requested" else "none" } ∧
    (sendFriendRequest st uid (.response true data) (.response true newRecs)).recommendations
      = newRecs := by
  refine ⟨rfl, ?_, rfl⟩
  show (st.searchResults.map (patchSearchResult uid data.status))[i]? = _
  rw [List.getElem?_map, hi]
  simp [patchSearchResult, hu]

/-- C6 witness: accepting the server's requested status patches the
matching entry. -/
theorem toggle_success_updates_status_notice_recs_witness :
    (sendFriendRequest { initialHomeState with searchResults := [⟨"u1", "al", "none"⟩] }
        "u1" (.response true ⟨"requested", "sent"⟩)
        (.response true [])).searchResults[0]?
      = some ⟨"u1", "al", "requested"⟩ :=
  (toggle_success_updates_status_notice_recs
    { initialHomeState with searchResults := [⟨"u1", "al", "none"⟩] }
    "u1" ⟨"requested", "sent"⟩ [] 0 ⟨"u1", "al", "none"⟩ rfl rfl).2.1

/-- C7 counterexample: when the recommendations fetch fails inside
fetchAllData, friends and pendingRequests are populated and
recommendations keeps its prior value — but the notification slot stays
empty: no error notification is emitted, the failure is only logged. -/
theorem loadAll_rec_failure_emits_no_notice :
    (fetchAllData { initialHomeState with recommendations := [⟨⟨"r0", "carol", "none"⟩, 1, 0⟩] }
        (.response true [⟨"f1", "alice", "friend"⟩]) .networkError
        (.response true [⟨"p1", "bob", "none"⟩])).friends = [⟨"f1", "alice", "friend"⟩] ∧
    (fetchAllData { initialHomeState with recommendations := [⟨⟨"r0", "carol", "none"⟩, 1, 0⟩] }
        (.response true [⟨"f1", "alice", "friend"⟩]) .networkError
        (.response true [⟨"p1", "bob", "none"⟩])).pendingRequests = [⟨"p1", "bob", "none"⟩] ∧
    (fetchAllData { initialHomeState with recommendations := [⟨⟨"r0", "carol", "none"⟩, 1, 0⟩] }
        (.response true [⟨"f1", "alice", "friend"⟩]) .networkError
        (.response true [⟨"p1", "bob", "none"⟩])).recommendations
      = [⟨⟨"r0", "carol", "none"⟩, 1, 0⟩] ∧
    (fetchAllData { initialHomeState with recommendations := [⟨⟨"r0", "carol", "none"⟩, 1, 0⟩] }
        (.response true [⟨"f1", "alice", "friend"⟩]) .networkError
        (.response true [⟨"p1", "bob", "none"⟩])).notifications.type = "" ∧
    ("" : String) ≠ "error" := by
  refine ⟨rfl, rfl, rfl, rfl, by decide⟩

/-- C7 (amended): the three fetches of fetchAllData run one after the
other, each catching its own failure, so a failing recommendations
fetch does not prevent friends and pendingRequests from being
populated; the failed collection keeps its prior value and the rest of
the state — the notification slot included — is untouched. -/
theorem loadAll_failure_isolation (st : HomeState)
    (newFriends newPending : List User) (ok1 ok3 : Bool)
    (recOut : FetchOutcome (List Recommendation))
    (hrec : recOut.isFailure = true) :
    fetchAllData st (.response ok1 newFriends) recOut (.response ok3 newPending)
      = { st with friends := newFriends, pendingRequests := newPending } := by
  cases recOut with
  | networkError => rfl
  | malformedBody => rfl
  | response ok body => simp [FetchOutcome.isFailure] at hrec

/-- C7 witness: the amended theorem from the empty first-load state. -/
theorem loadAll_failure_isolation_witness :
    fetchAllData initialHomeState (.response true [⟨"f1", "alice", "friend"⟩]) .networkError
        (.response true [⟨"p1", "bob", "none"⟩])
      = { initialHomeState with
          friends := [⟨"f1", "alice", "friend"⟩]
          pendingRequests := [⟨"p1", "bob", "none"⟩] } :=
  loadAll_failure_isolation initialHomeState [⟨"f1", "alice", "friend"⟩]
    [⟨"p1", "bob", "none"⟩] true true .networkError rfl

/-- C8: after a successful accept, the refreshed pendingRequests list
(in which the server no longer reports the request) contains no entry
for the user, and the refreshed friends list (in which the server now
reports the friendship) contains the user. -/
theorem accept_success_refreshes_pending_and_friends (st : HomeState) (uid : String)
    (newPending newFriends : List User)
    (hAbs : ∀ u ∈ newPending, u._id ≠ uid)
    (hPres : ∃ u ∈ newFriends, u._id = uid) :
    (∀ u ∈ (acceptFriendRequest st uid (.response true)
        (.response true newPending) (.response true newFriends)).pendingRequests,
      u._id ≠ uid) ∧
    (∃ u ∈ (acceptFriendRequest st uid (.response true)
        (.response true newPending) (.response true newFriends)).friends,
      u._id = uid) :=
  ⟨hAbs, hPres⟩

/-- C8 witness: accepting u1's request with a server that then reports
the friendship. -/
theorem accept_success_refreshes_pending_and_friends_witness :
    ∃ u ∈ (acceptFriendRequest initialHomeState "u1" (.response true)
        (.response true []) (.response true [⟨"u1", "al", "friend"⟩])).friends,
      u._id = "u1" :=
  (accept_success_refreshes_pending_and_friends initialHomeState "u1" []
    [⟨"u1", "al", "friend"⟩] (by simp)
    ⟨⟨"u1", "al", "friend"⟩, by simp, rfl⟩).2

/-- C9: starting from search results where the user is in state none,
a first successful toggle (server reports requested) flips every
matching entry to requested, and a second successful toggle (server
reports a non-requested status) restores the search results to their
original value. -/
theorem double_toggle_restores_search_results (st : HomeState) (uid : String)
    (m1 m2 s2 : String) (r1 r2 : FetchOutcome (List Recommendation))
    (hs2 : s2 ≠ "requested")
    (hNone : ∀ u ∈ st.searchResults, u._id = uid → u.requestStatus = "none") :
    (∀ u ∈ (sendFriendRequest st uid (.response true ⟨"requested", m1⟩) r1).searchResults,
        u._id = uid → u.requestStatus = "requested") ∧
    (sendFriendRequest (sendFriendRequest st uid (.response true ⟨"requested", m1⟩) r1)
        uid (.response true ⟨s2, m2⟩) r2).searchResults = st.searchResults := by
  have h1 : (sendFriendRequest st uid (.response true ⟨"requested", m1⟩) r1).searchResults
      = st.searchResults.map (patchSearchResult uid "requested") := by
    show (fetchRecommendations _ r1).searchResults = _
    rw [fetchRecommendations_searchResults]
  have h2 : (sendFriendRequest (sendFriendRequest st uid (.response true ⟨"requested", m1⟩) r1)
      uid (.response true ⟨s2, m2⟩) r2).searchResults
      = ((sendFriendRequest st uid
          (.response true ⟨"requested", m1⟩) r1).searchResults).map (patchSearchResult uid s2) := by
    show (fetchRecommendations _ r2).searchResults = _
    rw [fetchRecommendations_searchResults]
  constructor
  · intro u hu huid
    rw [h1] at hu
    obtain ⟨v, hv, rfl⟩ := List.mem_map.mp hu
    have hvid : v._id = uid := by rwa [patchSearchResult_id] at huid
    simp [patchSearchResult, hvid]
  · rw [h2, h1, patch_requested_then_none uid s2 hs2 st.searchResults hNone]

/-- C9 witness: toggling u1 twice from state none restores the original
search results. -/
theorem double_toggle_restores_search_results_witness :
    (sendFriendRequest (sendFriendRequest
        { initialHomeState with searchResults := [⟨"u1", "al", "none"⟩] }
        "u1" (.response true ⟨"requested", "sent"⟩) .networkError)
      "u1" (.response true ⟨"cancelled", "gone"⟩) .networkError).searchResults
      = [⟨"u1", "al", "none"⟩] :=
  (double_toggle_restores_search_results _ "u1" "sent" "gone" "cancelled"
    .networkError .networkError (by decide)
    (by intro u hu h; simp only [List.mem_singleton] at hu; subst hu; rfl)).2

/-- C10: on the success path of the toggle, friends and pendingRequests
are not locally modified, every search-result entry whose id differs
from the toggled user is left unchanged at its position, and the
result list keeps its length. -/
theorem toggle_success_frame (st : HomeState) (uid : String) (data : ToggleResponse)
    (recOut : FetchOutcome (List Recommendation)) (i : Nat) (u : User)
    (hi : st.searchResults[i]? = some u) (hne : u._id ≠ uid) :
    (sendFriendRequest st uid (.response true data) recOut).friends = st.friends ∧
    (sendFriendRequest st uid (.response true data) recOut).pendingRequests
      = st.pendingRequests ∧
    (sendFriendRequest st uid (.response true data) recOut).searchResults[i]? = some u ∧
    (sendFriendRequest st uid (.response true data) recOut).searchResults.length
      = st.searchResults.length := by
  have hsr : (sendFriendRequest st uid (.response true data) recOut).searchResults
      = st.searchResults.map (patchSearchResult uid data.status) := by
    show (fetchRecommendations _ recOut).searchResults = _
    rw [fetchRecommendations_searchResults]
  refine ⟨?_, ?_, ?_, ?_⟩
  · show (fetchRecommendations _ recOut).friends = _
    rw [fetchRecommendations_friends]
  · show (fetchRecommendations _ recOut).pendingRequests = _
    rw [fetchRecommendations_pendingRequests]
  · rw [hsr, List.getElem?_map, hi]
    simp [patchSearchResult, hne]
  · rw [hsr, List.length_map]

/-- C10 witness: an entry with a different id survives the toggle
unchanged. -/
theorem toggle_success_frame_witness :
    (sendFriendRequest { initialHomeState with searchResults := [⟨"u2", "bo", "friend"⟩] }
        "u1" (.response true ⟨"requested", "sent"⟩) .networkError).searchResults[0]?
      = some ⟨"u2", "bo", "friend"⟩ :=
  (toggle_success_frame { initialHomeState with searchResults := [⟨"u2", "bo", "friend"⟩] }
    "u1" ⟨"requested", "sent"⟩ .networkError 0 ⟨"u2", "bo", "friend"⟩
    rfl (by decide)).2.2.1

end MakeFriends
